import Mathlib

/-!
Verification of the project scaffolding generator in `src/new.rs`.

The Rust module is shallowly embedded: every content-builder method of
`Creator` becomes a Lean function producing the same string (Rust `format!`
interpolation becomes explicit `++` concatenation with the same literal
boundaries), paths (`PathBuf`) become lists of components, and the
side-effecting `run`/`create` pipeline becomes a pure function returning the
ordered trace of filesystem operations it performs together with its outcome.
Filesystem primitives (`crate::fs::mkdir`, `File::create`, `write_all`) are
external collaborators and are modelled as succeeding; the `expect` panics on
non-UTF-8 paths in `write` and `create` are modelled explicitly, since path
components may be non-UTF-8.
-/

namespace GleamNew

/-- The `Template` enum of `src/new.rs`: `Lib | App`. -/
inductive Template
  | Lib
  | App
deriving DecidableEq

/-- A filesystem path component (Rust `OsStr`): either valid UTF-8 text or an
opaque non-UTF-8 component (identified by a tag), on which `Path::to_str`
returns `None`. -/
inductive OsStr
  | valid (s : String)
  | invalid (id : Nat)
deriving DecidableEq

/-- Modelled from the spec: a filesystem path (Rust `PathBuf`) as its list of
components; `join` appends one component. -/
abbrev FsPath := List OsStr

/-- Rust `Path::to_str`: `Some` exactly on valid UTF-8 components. -/
def OsStr.to_str : OsStr → Option String
  | OsStr.valid s => some s
  | OsStr.invalid _ => none

/-- Whether a component is valid UTF-8 (i.e. `to_str` succeeds on it). -/
def OsStr.isValid : OsStr → Bool
  | OsStr.valid _ => true
  | OsStr.invalid _ => false

/-- Rust `PathBuf::join` with a `&str` argument (always valid UTF-8). -/
def FsPath.join (p : FsPath) (c : String) : FsPath := p ++ [OsStr.valid c]

/-- A whole path is valid UTF-8 when all of its components are; `to_str` on
the `PathBuf` succeeds exactly then. -/
def FsPath.validUtf8 (p : FsPath) : Bool := p.all OsStr.isValid

/-- Modelled from the spec: the externally supplied lookup tables used by
`validate_name` — the host-language reserved-word set
(`crate::erl::is_erlang_reserved_word`), the host standard-library module set
(`crate::erl::is_erlang_standard_library_module`) and the scaffolded
keyword set of the language (`crate::parse::lexer::str_to_keyword(..).is_some()`).
These live outside `src/` and the spec treats them as static membership
tests supplied externally, so they are abstract parameters here. -/
structure KeywordTables where
  is_erlang_reserved_word : String → Bool
  is_erlang_standard_library_module : String → Bool
  str_to_keyword_is_some : String → Bool

/-- Modelled from the spec: the caller-supplied options (`NewOptions`, defined
outside `src/`): a name, a free-form description, a template kind, and an
optional explicit project root path, here a single possibly non-UTF-8
path component. -/
structure NewOptions where
  name : String
  description : String
  template : Template
  project_root : Option OsStr

/-- The `InvalidProjectNameReason` variants used by `validate_name`. -/
inductive InvalidProjectNameReason
  | ErlangReservedWord
  | ErlangStandardLibraryModule
  | GleamReservedWord
  | Format
deriving DecidableEq

/-- The error values `src/new.rs` can produce from name validation
(`Error::InvalidProjectName`). The `Error::FileIO` variant is unreachable in
this model because the filesystem primitives are modelled as succeeding. -/
inductive Error
  | InvalidProjectName (name : String) (reason : InvalidProjectNameReason)
deriving DecidableEq

/-- One character class of the regex `[a-z_]`: a lowercase ASCII letter
(codepoints 97 to 122) or an underscore (codepoint 95). -/
def is_lower_or_underscore (c : Char) : Bool :=
  (97 ≤ c.toNat && c.toNat ≤ 122) || c.toNat == 95

/-- The anchored regex `^[a-z_]+$` of `validate_name`: a full-string match
requires a nonempty string all of whose characters are in `[a-z_]`. -/
def name_regex_is_match (name : String) : Bool :=
  !name.isEmpty && name.data.all is_lower_or_underscore

/-- The `validate_name` function of `src/new.rs` (its `Result<(), Error>`
rendered as `Option Error`, `none` standing for `Ok(())`). -/
def validate_name (tables : KeywordTables) (name : String) : Option Error :=
  if tables.is_erlang_reserved_word name then
    some (Error.InvalidProjectName name InvalidProjectNameReason.ErlangReservedWord)
  else if tables.is_erlang_standard_library_module name then
    some (Error.InvalidProjectName name InvalidProjectNameReason.ErlangStandardLibraryModule)
  else if tables.str_to_keyword_is_some name then
    some (Error.InvalidProjectName name InvalidProjectNameReason.GleamReservedWord)
  else if !(name_regex_is_match name) then
    some (Error.InvalidProjectName name InvalidProjectNameReason.Format)
  else
    none

/-- Concrete keyword tables for witnesses: `case` and `try` are Erlang
reserved words, `try`, `lists` and `base64` are Erlang standard-library
modules, `fn` is a Gleam keyword. -/
def sample_tables : KeywordTables :=
  KeywordTables.mk
    (fun s => s == "case" || s == "try")
    (fun s => s == "try" || s == "lists" || s == "base64")
    (fun s => s == "fn")

/-- A character is one of the classes named by the negative format
property: an uppercase ASCII letter, an ASCII digit, a hyphen, or a space. -/
def is_bad_format_char (c : Char) : Bool :=
  (65 ≤ c.toNat && c.toNat ≤ 90) || (48 ≤ c.toNat && c.toNat ≤ 57) ||
    c.toNat == 45 || c.toNat == 32

/-- The string contains an uppercase letter, digit, hyphen, or space. -/
def contains_bad_format_char (name : String) : Bool :=
  name.data.any is_bad_format_char

theorem bad_char_not_lower (c : Char) (h : is_bad_format_char c = true) :
    is_lower_or_underscore c = false := by
  simp [is_bad_format_char, is_lower_or_underscore] at *
  omega

theorem bad_char_no_match (name : String)
    (h : contains_bad_format_char name = true ∨ name = "") :
    name_regex_is_match name = false := by
  rcases h with h | h
  · simp [contains_bad_format_char, List.any_eq_true] at h
    obtain ⟨c, hc, hbad⟩ := h
    simp [name_regex_is_match]
    intro _
    exact ⟨c, hc, bad_char_not_lower c hbad⟩
  · subst h
    simp [name_regex_is_match, String.isEmpty]

/-- C1: `validate_name` applies its four rejection checks in the fixed
priority order reserved-word, stdlib-module-collision, language-keyword,
format, and reports the reason of the first check that matches; in
particular every name in the reserved-word set fails with
`ErlangReservedWord`, whatever the other sets contain. -/
theorem c1_validate_priority_order (tables : KeywordTables) (name : String) :
    (tables.is_erlang_reserved_word name = true →
      validate_name tables name =
        some (Error.InvalidProjectName name InvalidProjectNameReason.ErlangReservedWord)) ∧
    (tables.is_erlang_reserved_word name = false →
      tables.is_erlang_standard_library_module name = true →
      validate_name tables name =
        some (Error.InvalidProjectName name InvalidProjectNameReason.ErlangStandardLibraryModule)) ∧
    (tables.is_erlang_reserved_word name = false →
      tables.is_erlang_standard_library_module name = false →
      tables.str_to_keyword_is_some name = true →
      validate_name tables name =
        some (Error.InvalidProjectName name InvalidProjectNameReason.GleamReservedWord)) ∧
    (tables.is_erlang_reserved_word name = false →
      tables.is_erlang_standard_library_module name = false →
      tables.str_to_keyword_is_some name = false →
      name_regex_is_match name = false →
      validate_name tables name =
        some (Error.InvalidProjectName name InvalidProjectNameReason.Format)) ∧
    (tables.is_erlang_reserved_word name = false →
      tables.is_erlang_standard_library_module name = false →
      tables.str_to_keyword_is_some name = false →
      name_regex_is_match name = true →
      validate_name tables name = none) := by
  refine ⟨?_, ?_, ?_, ?_, ?_⟩ <;> intros <;> simp [validate_name, *]

/-- Witness for C1: `try` is simultaneously in the sample reserved-word set
and the sample stdlib-module set, and `validate_name` rejects it with
`ErlangReservedWord` (rule 1 wins). -/
theorem c1_validate_priority_order_witness :
    validate_name sample_tables "try" =
      some (Error.InvalidProjectName "try" InvalidProjectNameReason.ErlangReservedWord) :=
  (c1_validate_priority_order sample_tables "try").1 (by decide)

/-- Counterexample for C2: `base64` contains a digit, yet with stdlib tables
containing the Erlang standard-library module name `base64` the validator
rejects it with `ErlangStandardLibraryModule`, not `Format` — so "every
string containing a digit fails with `InvalidFormat`" is false as stated. -/
theorem c2_counterexample :
    contains_bad_format_char "base64" = true ∧
    validate_name sample_tables "base64" ≠
      some (Error.InvalidProjectName "base64" InvalidProjectNameReason.Format) ∧
    validate_name sample_tables "base64" =
      some (Error.InvalidProjectName "base64" InvalidProjectNameReason.ErlangStandardLibraryModule) := by
  refine ⟨by decide, by decide, by decide⟩

/-- C2 (amended): for every string matching `^[a-z_]+$` that is in none of
the three sets, `validate_name` succeeds; and for every string that is in
none of the three sets and contains an uppercase letter, digit, hyphen or
space (or is empty), `validate_name` fails with `Format`. -/
theorem c2_format_accept_reject (tables : KeywordTables) (name : String)
    (h1 : tables.is_erlang_reserved_word name = false)
    (h2 : tables.is_erlang_standard_library_module name = false)
    (h3 : tables.str_to_keyword_is_some name = false) :
    (name_regex_is_match name = true → validate_name tables name = none) ∧
    (contains_bad_format_char name = true ∨ name = "" →
      validate_name tables name =
        some (Error.InvalidProjectName name InvalidProjectNameReason.Format)) := by
  constructor
  · intro h4
    simp [validate_name, h1, h2, h3, h4]
  · intro h4
    have := bad_char_no_match name h4
    simp [validate_name, h1, h2, h3, this]

/-- Witness for C2: `Hello World` contains an uppercase letter and a space,
is in none of the sample sets, and is rejected with `Format`. -/
theorem c2_format_accept_reject_witness :
    validate_name sample_tables "Hello World" =
      some (Error.InvalidProjectName "Hello World" InvalidProjectNameReason.Format) :=
  (c2_format_accept_reject sample_tables "Hello World" (by decide) (by decide)
    (by decide)).2 (Or.inl (by decide))

/-- The compile-time constant `GLEAM_STDLIB_VERSION` of `src/new.rs`. -/
def GLEAM_STDLIB_VERSION : String := "0.13.0"

/-- The compile-time constant `GLEAM_OTP_VERSION` of `src/new.rs`. -/
def GLEAM_OTP_VERSION : String := "0.1.0"

/-- The compile-time constant `ERLANG_OTP_VERSION` of `src/new.rs`. -/
def ERLANG_OTP_VERSION : String := "22.1"

/-- The compile-time constant `PROJECT_VERSION` of `src/new.rs`. -/
def PROJECT_VERSION : String := "1.0.0"

/-- The `Creator` struct of `src/new.rs`: derived paths plus the options and
generator version. -/
structure Creator where
  root : FsPath
  src : FsPath
  test : FsPath
  github : FsPath
  workflows : FsPath
  gleam_version : String
  options : NewOptions

/-- The `Creator::new` constructor: root from `project_root` or the name,
then `src`, `test`, `.github` and `.github/workflows` joined under it. -/
def Creator.new (options : NewOptions) (gleam_version : String) : Creator :=
  let root : FsPath := match options.project_root with
    | some root => [root]
    | none => [OsStr.valid options.name]
  let src := root.join ("src")
  let test := root.join ("test")
  let github := root.join (".github")
  let workflows := github.join ("workflows")
  Creator.mk root src test github workflows gleam_version options

/-- Content of `Creator::src_application_module` (App template only). -/
def src_application_module_content : String :=
  "import gleam/otp/supervisor.\x7bApplicationStartMode, ErlangStartResult\x7d\nimport gleam/dynamic.\x7bDynamic\x7d\n\nfn init(children) \x7b\n  children\n\x7d\n\npub fn start(\n  _mode: ApplicationStartMode,\n  _args: List(Dynamic),\n) -> ErlangStartResult \x7b\n  init\n  |> supervisor.start\n  |> supervisor.to_erlang_start_result\n\x7d\n\npub fn stop(_state: Dynamic) \x7b\n  supervisor.application_stopped()\n\x7d\n"

/-- Content of `Creator::src_module`: the `hello_world` stub. -/
def src_module_content (name : String) : String :=
  "pub fn hello_world() -> String \x7b\n  \"Hello, from " ++ name ++ "!\"\n\x7d\n"

/-- Content of `Creator::lib_rebar_config`. -/
def lib_rebar_config_content : String :=
  "\x7berl_opts, [debug_info]\x7d.\n\x7bsrc_dirs, [\"src\", \"gen/src\"]\x7d.\n\n\x7bprofiles, [\n    \x7btest, [\x7bsrc_dirs, [\"src\", \"test\", \"gen/src\", \"gen/test\"]\x7d]\x7d\n]\x7d.\n\n\x7bproject_plugins, [rebar_gleam]\x7d.\n\n\x7bdeps, [\n    \x7bgleam_stdlib, \"" ++ GLEAM_STDLIB_VERSION ++ "\"\x7d\n]\x7d.\n"

/-- Content of `Creator::app_rebar_config`. -/
def app_rebar_config_content (name : String) : String :=
  "\x7berl_opts, [debug_info]\x7d.\n\x7bsrc_dirs, [\"src\", \"gen/src\"]\x7d.\n\n\x7bprofiles, [\n    \x7btest, [\x7bsrc_dirs, [\"src\", \"test\", \"gen/src\", \"gen/test\"]\x7d]\x7d\n]\x7d.\n\n\x7bshell, [\n    % \x7bconfig, \"config/sys.config\"\x7d,\n    \x7bapps, [" ++ name ++ "]\x7d\n]\x7d.\n\n\x7bproject_plugins, [rebar_gleam]\x7d.\n\n\x7bdeps, [\n    \x7bgleam_stdlib, \"" ++ GLEAM_STDLIB_VERSION ++ "\"\x7d,\n    \x7bgleam_otp, \"" ++ GLEAM_OTP_VERSION ++ "\"\x7d\n]\x7d.\n"

/-- Content of `Creator::app_src`, following the source exactly: the
`format!` call passes its arguments in the order name, `PROJECT_VERSION`,
description, module, so the `description` field receives `PROJECT_VERSION`
and the `vsn` field receives the description. -/
def app_src_content (name description : String) (template : Template) : String :=
  let module := match template with
    | Template.App => "\n  \x7bmod, \x7b" ++ name ++ "@application, []\x7d\x7d,"
    | _ => ""
  "\x7bapplication, " ++ name ++ ",\n [\x7bdescription, \"" ++ PROJECT_VERSION ++ "\"\x7d,\n  \x7bvsn, \"" ++ description ++ "\"\x7d,\n  \x7bregistered, []\x7d," ++ module ++ "\n  \x7bapplications,\n   [kernel,\n    stdlib,\n    gleam_stdlib\n   ]\x7d,\n  \x7benv,[]\x7d,\n  \x7bmodules, []\x7d,\n\n  \x7binclude_files, [\"gleam.toml\", \"gen\"]\x7d,\n  \x7blicenses, [\"Apache 2.0\"]\x7d,\n  \x7blinks, []\x7d\n]\x7d.\n"

/-- Content of `Creator::gitignore`. -/
def gitignore_content : String :=
  "*.beam\n*.iml\n*.o\n*.plt\n*.swo\n*.swp\n*~\n.erlang.cookie\n.eunit\n.idea\n.rebar\n.rebar3\n_*\n_build\ndocs\nebin\nerl_crash.dump\ngen\nlog\nlogs\nrebar3.crashdump\n"

/-- Content of `Creator::readme`. -/
def readme_content (name description : String) : String :=
  "# " ++ name ++ "\n\n" ++ description ++ "\n\n## Quick start\n\n```sh\n# Build the project\nrebar3 compile\n\n# Run the eunit tests\nrebar3 eunit\n\n# Run the Erlang REPL\nrebar3 shell\n```\n\n## Installation\n\nIf [available in Hex](https://www.rebar3.org/docs/dependencies#section-declaring-dependencies)\nthis package can be installed by adding `" ++ name ++ "` to your `rebar.config` dependencies:\n\n```erlang\n\x7bdeps, [\n    " ++ name ++ "\n]\x7d.\n```\n"

/-- Content of `Creator::github_ci`: embeds `ERLANG_OTP_VERSION` and the
caller-supplied generator version. -/
def github_ci_content (gleam_version : String) : String :=
  "name: test\n\non:\n  push:\n    branches:\n      - master\n      - main\n  pull_request:\n\njobs:\n  test:\n    runs-on: ubuntu-latest\n    steps:\n      - uses: actions/checkout@v2.0.0\n      - uses: gleam-lang/setup-erlang@v1.1.0\n        with:\n          otp-version: " ++ ERLANG_OTP_VERSION ++ "\n      - uses: gleam-lang/setup-gleam@v1.0.2\n        with:\n          gleam-version: " ++ gleam_version ++ "\n      - run: rebar3 install_deps\n      - run: rebar3 eunit\n      - run: gleam format -\x2dcheck src test\n"

/-- Content of `Creator::gleam_toml`. -/
def gleam_toml_content (name : String) : String :=
  "name = \"" ++ name ++ "\"\n\n# [docs]\n# links = [\n#   \x7b title = \x27GitHub\x27, href = \x27https://github.com/username/project_name\x27 \x7d\n# ]\n"

/-- Content of `Creator::test_module`. -/
def test_module_content (name : String) : String :=
  "import " ++ name ++ "\nimport gleam/should\n\npub fn hello_world_test() \x7b\n  " ++ name ++ ".hello_world()\n  |> should.equal(\"Hello, from " ++ name ++ "!\")\n\x7d\n"

/-- A filesystem mutation performed by the generator. -/
inductive FsOp
  | mkdir (path : FsPath)
  | write (path : FsPath) (contents : String)
deriving DecidableEq

/-- Result of one call to the `write` helper: the performed operation, or a
panic from the `expect` on `path.to_str()` (which precedes `File::create`,
so a panicking call performs no mutation). -/
inductive WriteResult
  | wrote (op : FsOp)
  | panicked
deriving DecidableEq

/-- The `write` helper of `src/new.rs`. `File::create` and `write_all` are
external filesystem primitives modelled as succeeding; the
`path.to_str().expect(..)` in the progress `println!` panics on non-UTF-8
paths before any mutation. -/
def write (path : FsPath) (contents : String) : WriteResult :=
  if path.validUtf8 then WriteResult.wrote (FsOp.write path contents)
  else WriteResult.panicked

/-- Outcome of a whole `create`/`run` call. -/
inductive RunResult
  | ok
  | error (e : Error)
  | panicked
deriving DecidableEq

/-- The directories `Creator::run` creates, in creation order: root, src,
test, `.github`, `.github/workflows`, and for the App template additionally
`src/<name>` (created first in the App arm, before any file write). -/
def Creator.dirs (c : Creator) : List FsPath :=
  [c.root, c.src, c.test, c.github, c.workflows] ++
    (match c.options.template with
     | Template.App => [c.src.join c.options.name]
     | Template.Lib => [])

/-- The files `Creator::run` writes, with their paths, in write order: the
Lib arm calls gitignore, github_ci, readme, gleam_toml, lib_rebar_config,
app_src, src_module, test_module; the App arm calls gitignore, github_ci,
readme, gleam_toml, app_rebar_config, app_src, src_module,
src_application_module, test_module. -/
def Creator.files (c : Creator) : List (FsPath × String) :=
  match c.options.template with
  | Template.Lib =>
    [(c.root.join (".gitignore"), gitignore_content),
     (c.workflows.join ("test.yml"), github_ci_content c.gleam_version),
     (c.root.join ("README.md"), readme_content c.options.name c.options.description),
     (c.root.join ("gleam.toml"), gleam_toml_content c.options.name),
     (c.root.join ("rebar.config"), lib_rebar_config_content),
     (c.src.join (c.options.name ++ ".app.src"),
       app_src_content c.options.name c.options.description c.options.template),
     (c.src.join (c.options.name ++ ".gleam"), src_module_content c.options.name),
     (c.test.join (c.options.name ++ "_test.gleam"), test_module_content c.options.name)]
  | Template.App =>
    [(c.root.join (".gitignore"), gitignore_content),
     (c.workflows.join ("test.yml"), github_ci_content c.gleam_version),
     (c.root.join ("README.md"), readme_content c.options.name c.options.description),
     (c.root.join ("gleam.toml"), gleam_toml_content c.options.name),
     (c.root.join ("rebar.config"), app_rebar_config_content c.options.name),
     (c.src.join (c.options.name ++ ".app.src"),
       app_src_content c.options.name c.options.description c.options.template),
     (c.src.join (c.options.name ++ ".gleam"), src_module_content c.options.name),
     ((c.src.join c.options.name).join ("application.gleam"), src_application_module_content),
     (c.test.join (c.options.name ++ "_test.gleam"), test_module_content c.options.name)]

/-- Sequentially perform the pending writes, accumulating the trace of
operations performed so far; a panicking `write` aborts with the trace as it
stood (its own operation not performed). -/
def run_writes : List (FsPath × String) → List FsOp → RunResult × List FsOp
  | [], trace => (RunResult.ok, trace)
  | (path, contents) :: rest, trace =>
    match write path contents with
    | WriteResult.wrote op => run_writes rest (trace ++ [op])
    | WriteResult.panicked => (RunResult.panicked, trace)

/-- The `Creator::run` method: the five `mkdir`s (plus `src/<name>` for App)
followed by the file writes of the template. `crate::fs::mkdir` is an external
primitive modelled as succeeding. -/
def Creator.run (c : Creator) : RunResult × List FsOp :=
  run_writes c.files (c.dirs.map FsOp.mkdir)

/-- The `create` entry point of `src/new.rs`: validate the name, build the
`Creator`, run it, then print the success message whose
`root.to_str().expect(..)` panics when the root path is not valid UTF-8. -/
def create (tables : KeywordTables) (options : NewOptions) (version : String) :
    RunResult × List FsOp :=
  match validate_name tables options.name with
  | some e => (RunResult.error e, [])
  | none =>
    let creator := Creator.new options version
    match creator.run with
    | (RunResult.ok, trace) =>
      if creator.root.validUtf8 then (RunResult.ok, trace)
      else (RunResult.panicked, trace)
    | r => r

/-- Concrete options for witnesses: a Lib project named `myapp` with the
root defaulted. -/
def sample_options : NewOptions :=
  NewOptions.mk "myapp" "A fun project" Template.Lib none

/-- Concrete options whose name is an Erlang reserved word. -/
def case_options : NewOptions :=
  NewOptions.mk "case" "A fun project" Template.Lib none

theorem validate_name_error_shape (tables : KeywordTables) (name : String) (e : Error)
    (h : validate_name tables name = some e) :
    ∃ reason, e = Error.InvalidProjectName name reason := by
  unfold validate_name at h
  split at h
  · exact ⟨_, (Option.some.inj h).symm⟩
  · split at h
    · exact ⟨_, (Option.some.inj h).symm⟩
    · split at h
      · exact ⟨_, (Option.some.inj h).symm⟩
      · split at h
        · exact ⟨_, (Option.some.inj h).symm⟩
        · cases h

/-- C3: when name validation fails, `create` returns the
`InvalidProjectName` error of the validator unchanged and performs no filesystem operation:
its trace is empty (no directory created, no file written). -/
theorem c3_invalid_name_no_mutation (tables : KeywordTables) (options : NewOptions)
    (version : String) (e : Error)
    (h : validate_name tables options.name = some e) :
    (∃ reason, e = Error.InvalidProjectName options.name reason) ∧
    create tables options version = (RunResult.error e, []) := by
  refine ⟨validate_name_error_shape tables options.name e h, ?_⟩
  simp [create, h]

/-- Witness for C3: creating a project named `case` fails with
`ErlangReservedWord` and performs no filesystem operation. -/
theorem c3_invalid_name_no_mutation_witness :
    create sample_tables case_options "0.13.0" =
      (RunResult.error
        (Error.InvalidProjectName "case" InvalidProjectNameReason.ErlangReservedWord), []) :=
  (c3_invalid_name_no_mutation sample_tables case_options "0.13.0"
    (Error.InvalidProjectName "case" InvalidProjectNameReason.ErlangReservedWord)
    (by decide)).2

/-- C4: evaluating the generated app descriptor at name `myapp` and
description `A fun project` shows the `description` field holding the fixed
scaffold version `1.0.0` and the `vsn` field holding the description text —
the `format!` arguments are passed in swapped order, contradicting the
statement of the spec that the description is used verbatim in the `description`
field and the `vsn` field holds the fixed project-scaffold version. -/
theorem c4_app_src_description_vsn_swapped :
    app_src_content ("myapp") ("A fun project") Template.Lib =
      "\x7bapplication, myapp,\n [\x7bdescription, \"1.0.0\"\x7d,\n  \x7bvsn, \"A fun project\"\x7d,\n  \x7bregistered, []\x7d,\n  \x7bapplications,\n   [kernel,\n    stdlib,\n    gleam_stdlib\n   ]\x7d,\n  \x7benv,[]\x7d,\n  \x7bmodules, []\x7d,\n\n  \x7binclude_files, [\"gleam.toml\", \"gen\"]\x7d,\n  \x7blicenses, [\"Apache 2.0\"]\x7d,\n  \x7blinks, []\x7d\n]\x7d.\n" ∧
    app_src_content ("myapp") ("A fun project") Template.Lib ≠
      "\x7bapplication, myapp,\n [\x7bdescription, \"A fun project\"\x7d,\n  \x7bvsn, \"1.0.0\"\x7d,\n  \x7bregistered, []\x7d,\n  \x7bapplications,\n   [kernel,\n    stdlib,\n    gleam_stdlib\n   ]\x7d,\n  \x7benv,[]\x7d,\n  \x7bmodules, []\x7d,\n\n  \x7binclude_files, [\"gleam.toml\", \"gen\"]\x7d,\n  \x7blicenses, [\"Apache 2.0\"]\x7d,\n  \x7blinks, []\x7d\n]\x7d.\n" := by
  refine ⟨by rfl, by decide⟩

/-- Everything in the app descriptor before the `mod`-entry slot. -/
def app_src_head (name description : String) : String :=
  "\x7bapplication, " ++ name ++ ",\n [\x7bdescription, \"" ++ PROJECT_VERSION ++
    "\"\x7d,\n  \x7bvsn, \"" ++ description ++ "\"\x7d,\n  \x7bregistered, []\x7d,"

/-- The `mod` entry the App template inserts into the app descriptor. -/
def app_src_mod_entry (name : String) : String :=
  "\n  \x7bmod, \x7b" ++ name ++ "@application, []\x7d\x7d,"

/-- Everything in the app descriptor after the `mod`-entry slot. -/
def app_src_tail : String :=
  "\n  \x7bapplications,\n   [kernel,\n    stdlib,\n    gleam_stdlib\n   ]\x7d,\n  \x7benv,[]\x7d,\n  \x7bmodules, []\x7d,\n\n  \x7binclude_files, [\"gleam.toml\", \"gen\"]\x7d,\n  \x7blicenses, [\"Apache 2.0\"]\x7d,\n  \x7blinks, []\x7d\n]\x7d.\n"

/-- C5: the entry-point registration field of the app descriptor is present
exactly for the App template — the App content is the common head, then a
`mod` entry naming `<name>@application` as start callback, then the common
tail, while the Lib content is the same head and tail with nothing in
between; this slot is the only structural branch of the content on the
template. -/
theorem c5_mod_entry_present_iff_app (name description : String) :
    app_src_content name description Template.App =
      app_src_head name description ++ app_src_mod_entry name ++ app_src_tail ∧
    app_src_content name description Template.Lib =
      app_src_head name description ++ app_src_tail := by
  constructor <;>
    (apply String.ext
     simp [app_src_content, app_src_head, app_src_mod_entry, app_src_tail,
       String.data_append])

theorem run_writes_trace (l : List (FsPath × String)) (acc : List FsOp) :
    ∃ ops, (run_writes l acc).2 = acc ++ ops ∧ ∀ op ∈ ops, ∃ p s, op = FsOp.write p s := by
  induction l generalizing acc with
  | nil => exact ⟨[], by simp [run_writes], by simp⟩
  | cons e rest ih =>
    obtain ⟨path, contents⟩ := e
    unfold run_writes write
    by_cases hp : path.validUtf8 = true
    · rw [if_pos hp]
      obtain ⟨ops, h1, h2⟩ := ih (acc ++ [FsOp.write path contents])
      refine ⟨FsOp.write path contents :: ops, ?_, ?_⟩
      · rw [h1]
        simp
      · intro op hop
        rcases List.mem_cons.mp hop with h | h
        · exact ⟨path, contents, h⟩
        · exact h2 op h
    · rw [if_neg hp]
      exact ⟨[], by simp, by simp⟩

theorem run_writes_all_valid (l : List (FsPath × String)) (acc : List FsOp)
    (h : ∀ e ∈ l, FsPath.validUtf8 e.1 = true) :
    run_writes l acc = (RunResult.ok, acc ++ l.map (fun e => FsOp.write e.1 e.2)) := by
  induction l generalizing acc with
  | nil => simp [run_writes]
  | cons e rest ih =>
    obtain ⟨path, contents⟩ := e
    have hp : path.validUtf8 = true := h (path, contents) (List.mem_cons_self _ _)
    unfold run_writes write
    rw [if_pos hp]
    dsimp only
    rw [ih (acc ++ [FsOp.write path contents]) (fun x hx => h x (List.mem_cons_of_mem _ hx))]
    simp

theorem create_trace_eq_run_trace (tables : KeywordTables) (options : NewOptions)
    (version : String) (h : validate_name tables options.name = none) :
    (create tables options version).2 = ((Creator.new options version).run).2 := by
  cases hrun : (Creator.new options version).run with
  | mk r trace =>
    cases r with
    | ok =>
      simp only [create, h, hrun]
      split <;> rfl
    | error e => simp [create, h, hrun]
    | panicked => simp [create, h, hrun]

/-- C6: the layout is a pure function of the options — root is the supplied
project root or else the name, `src`, `test`, `.github` and
`.github/workflows` are joined under it — and a successful validation leads
to directories being created in the fixed order root, src, test, `.github`,
`.github/workflows`, then `src/<name>` for the App template, all before any
file write appears in the trace. -/
theorem c6_layout_and_dir_order (tables : KeywordTables) (options : NewOptions)
    (version : String) (h : validate_name tables options.name = none) :
    ((Creator.new options version).root = match options.project_root with
       | some root => [root]
       | none => [OsStr.valid options.name]) ∧
    (Creator.new options version).src = (Creator.new options version).root.join ("src") ∧
    (Creator.new options version).test = (Creator.new options version).root.join ("test") ∧
    (Creator.new options version).github =
      (Creator.new options version).root.join (".github") ∧
    (Creator.new options version).workflows =
      ((Creator.new options version).root.join (".github")).join ("workflows") ∧
    (Creator.new options version).dirs =
      [(Creator.new options version).root, (Creator.new options version).src,
        (Creator.new options version).test, (Creator.new options version).github,
        (Creator.new options version).workflows] ++
      (match options.template with
       | Template.App => [(Creator.new options version).src.join options.name]
       | Template.Lib => []) ∧
    ∃ ops, (create tables options version).2 =
        ((Creator.new options version).dirs.map FsOp.mkdir) ++ ops ∧
      ∀ op ∈ ops, ∃ p s, op = FsOp.write p s := by
  refine ⟨rfl, rfl, rfl, rfl, rfl, rfl, ?_⟩
  rw [create_trace_eq_run_trace tables options version h]
  exact run_writes_trace _ _

/-- Witness for C6: on the sample options the trace of `create` is the
mkdir list followed by only write operations. -/
theorem c6_layout_and_dir_order_witness :
    ∃ ops, (create sample_tables sample_options "0.13.0").2 =
        ((Creator.new sample_options "0.13.0").dirs.map FsOp.mkdir) ++ ops ∧
      ∀ op ∈ ops, ∃ p s, op = FsOp.write p s :=
  (c6_layout_and_dir_order sample_tables sample_options "0.13.0" (by decide)).2.2.2.2.2.2

/-- C7 (amended): files are emitted in the fixed order ignore-file, CI
workflow file, README, `gleam.toml`, the build-configuration
file of the template, the app descriptor, the source module stub, then — for the App
template — the application-entry module, and finally the test module stub;
the build-configuration file thus precedes the source and test stubs rather
than following all common files. -/
theorem c7_emission_order (options : NewOptions) (version : String) :
    (Creator.new options version).files.map Prod.fst =
      [(Creator.new options version).root.join (".gitignore"),
        (Creator.new options version).workflows.join ("test.yml"),
        (Creator.new options version).root.join ("README.md"),
        (Creator.new options version).root.join ("gleam.toml"),
        (Creator.new options version).root.join ("rebar.config"),
        (Creator.new options version).src.join (options.name ++ ".app.src"),
        (Creator.new options version).src.join (options.name ++ ".gleam")] ++
      (match options.template with
       | Template.App =>
          [((Creator.new options version).src.join options.name).join ("application.gleam")]
       | Template.Lib => []) ++
      [(Creator.new options version).test.join (options.name ++ "_test.gleam")] := by
  obtain ⟨name, description, template, project_root⟩ := options
  cases template <;> rfl

/-- Counterexample for C7: for a Lib project named `myapp` the
build-configuration file `rebar.config` (template-specific) is emitted
before the source module stub and before the test module stub (both common),
so the claimed order "all common files first, then the template-specific
files" is false on this input. -/
theorem c7_counterexample :
    ((Creator.new sample_options "0.13.0").files.map Prod.fst).indexOf
        [OsStr.valid "myapp", OsStr.valid "rebar.config"] <
      ((Creator.new sample_options "0.13.0").files.map Prod.fst).indexOf
        [OsStr.valid "myapp", OsStr.valid "src", OsStr.valid "myapp.gleam"] ∧
    ((Creator.new sample_options "0.13.0").files.map Prod.fst).indexOf
        [OsStr.valid "myapp", OsStr.valid "rebar.config"] <
      ((Creator.new sample_options "0.13.0").files.map Prod.fst).indexOf
        [OsStr.valid "myapp", OsStr.valid "test", OsStr.valid "myapp_test.gleam"] := by
  refine ⟨by decide, by decide⟩

/-- The greeting string both generated modules are built around. -/
def hello_greeting (name : String) : String := "Hello, from " ++ name ++ "!"

/-- The source module stub up to the opening quote of the greeting. -/
def src_module_pre : String := "pub fn hello_world() -> String \x7b\n  \""

/-- The source module stub after the closing quote of the greeting. -/
def src_module_post : String := "\"\n\x7d\n"

/-- The test module up to the opening quote of the asserted string. -/
def test_module_pre (name : String) : String :=
  "import " ++ name ++ "\nimport gleam/should\n\npub fn hello_world_test() \x7b\n  " ++
    name ++ ".hello_world()\n  |> should.equal(\""

/-- The test module after the closing quote of the asserted string. -/
def test_module_post : String := "\")\n\x7d\n"

/-- C8: for every name, the greeting embedded in the generated source module
stub (the body of `hello_world`) is exactly the string the generated test
module asserts equality against — both decompose around the same
`Hello, from <name>!` string. -/
theorem c8_src_and_test_agree_on_greeting (name : String) :
    src_module_content name = src_module_pre ++ hello_greeting name ++ src_module_post ∧
    test_module_content name =
      test_module_pre name ++ hello_greeting name ++ test_module_post := by
  constructor <;>
    (apply String.ext
     simp [src_module_content, test_module_content, src_module_pre, src_module_post,
       test_module_pre, test_module_post, hello_greeting, String.data_append])

/-- The root path computed from the options alone (as `Creator::new` does). -/
def root_path (options : NewOptions) : FsPath :=
  match options.project_root with
  | some root => [root]
  | none => [OsStr.valid options.name]

/-- The path of the generated CI workflow file, `<root>/.github/workflows/test.yml`. -/
def ci_path (options : NewOptions) : FsPath :=
  (((root_path options).join (".github")).join ("workflows")).join ("test.yml")

/-- Rewrite the contents of the write operation of the CI workflow file to the
text generated for version `v`, leaving every other operation unchanged. -/
def replace_ci_write (options : NewOptions) (v : String) : FsOp → FsOp
  | FsOp.write p c =>
    if p = ci_path options then FsOp.write p (github_ci_content v) else FsOp.write p c
  | FsOp.mkdir p => FsOp.mkdir p

/-- The CI workflow text before the host-runtime version slot. -/
def ci_pre : String :=
  "name: test\n\non:\n  push:\n    branches:\n      - master\n      - main\n  pull_request:\n\njobs:\n  test:\n    runs-on: ubuntu-latest\n    steps:\n      - uses: actions/checkout@v2.0.0\n      - uses: gleam-lang/setup-erlang@v1.1.0\n        with:\n          otp-version: "

/-- The CI workflow text between the two version slots. -/
def ci_mid : String :=
  "\n      - uses: gleam-lang/setup-gleam@v1.0.2\n        with:\n          gleam-version: "

/-- The CI workflow text after the generator-version slot. -/
def ci_post : String :=
  "\n      - run: rebar3 install_deps\n      - run: rebar3 eunit\n      - run: gleam format -\x2dcheck src test\n"

theorem run_writes_map (g : FsOp → FsOp) (cf : FsPath → String → String)
    (hg : ∀ p c, g (FsOp.write p c) = FsOp.write p (cf p c))
    (l : List (FsPath × String)) (acc : List FsOp) :
    run_writes (l.map (fun e => (e.1, cf e.1 e.2))) (acc.map g) =
      ((run_writes l acc).1, ((run_writes l acc).2).map g) := by
  induction l generalizing acc with
  | nil => simp [run_writes]
  | cons e rest ih =>
    obtain ⟨p, c⟩ := e
    rw [List.map_cons]
    unfold run_writes write
    by_cases hv : p.validUtf8 = true
    · rw [if_pos hv, if_pos hv]
      dsimp only
      have hacc : (acc.map g) ++ [FsOp.write p (cf p c)] =
          (acc ++ [FsOp.write p c]).map g := by
        simp [hg]
      rw [hacc, ih]
    · rw [if_neg hv, if_neg hv]

theorem files_version_map (options : NewOptions) (v₁ v₂ : String) :
    (Creator.new options v₂).files =
      ((Creator.new options v₁).files).map
        (fun e =>
          (e.1, if e.1 = ci_path options then github_ci_content v₂ else e.2)) := by
  obtain ⟨name, description, template, project_root⟩ := options
  cases template <;>
    simp [Creator.files, Creator.new, ci_path, root_path, FsPath.join]

/-- C9: the caller-supplied generator version influences only the CI
workflow file — for identical options the outcome is the same and the trace
of the run with version `v₂` is the trace of the run with version `v₁` with
only the write contents of the CI file rewritten — and the CI file content
embeds exactly the fixed `ERLANG_OTP_VERSION` constant and the version
string of the caller. -/
theorem c9_version_only_affects_ci_file (tables : KeywordTables) (options : NewOptions)
    (v₁ v₂ : String) :
    (create tables options v₂).1 = (create tables options v₁).1 ∧
    (create tables options v₂).2 =
      ((create tables options v₁).2).map (replace_ci_write options v₂) ∧
    github_ci_content v₂ = ci_pre ++ ERLANG_OTP_VERSION ++ ci_mid ++ v₂ ++ ci_post := by
  have hg : ∀ p c, replace_ci_write options v₂ (FsOp.write p c) =
      FsOp.write p (if p = ci_path options then github_ci_content v₂ else c) := by
    intro p c
    by_cases hp : p = ci_path options <;> simp [replace_ci_write, hp]
  have hdirs : (Creator.new options v₂).dirs = (Creator.new options v₁).dirs := rfl
  have hmk : ((Creator.new options v₁).dirs.map FsOp.mkdir).map (replace_ci_write options v₂) =
      (Creator.new options v₁).dirs.map FsOp.mkdir := by
    simp only [List.map_map]
    exact List.map_congr_left (fun p _ => rfl)
  have key := run_writes_map (replace_ci_write options v₂)
    (fun p c => if p = ci_path options then github_ci_content v₂ else c) hg
    (Creator.new options v₁).files ((Creator.new options v₁).dirs.map FsOp.mkdir)
  rw [hmk, ← files_version_map options v₁ v₂] at key
  have hrun : (Creator.new options v₂).run =
      (((Creator.new options v₁).run).1,
        (((Creator.new options v₁).run).2).map (replace_ci_write options v₂)) := key
  have hroot : (Creator.new options v₂).root = (Creator.new options v₁).root := rfl
  refine ⟨?_, ?_, rfl⟩
  · cases hval : validate_name tables options.name with
    | some e => simp [create, hval]
    | none =>
      cases hr : (Creator.new options v₁).run with
      | mk r trace =>
        cases r with
        | ok =>
          simp only [create, hval, hrun, hr, hroot]
          split <;> rfl
        | error e => simp [create, hval, hrun, hr]
        | panicked => simp [create, hval, hrun, hr]
  · cases hval : validate_name tables options.name with
    | some e => simp [create, hval]
    | none =>
      cases hr : (Creator.new options v₁).run with
      | mk r trace =>
        cases r with
        | ok =>
          simp only [create, hval, hrun, hr, hroot]
          split <;> rfl
        | error e => simp [create, hval, hrun, hr, replace_ci_write]
        | panicked => simp [create, hval, hrun, hr, replace_ci_write]

theorem join_validUtf8 (p : FsPath) (s : String) :
    (p.join s).validUtf8 = p.validUtf8 := by
  simp [FsPath.join, FsPath.validUtf8, OsStr.isValid]

theorem files_valid_of_root_valid (options : NewOptions) (version : String)
    (h : (root_path options).validUtf8 = true) :
    ∀ e ∈ (Creator.new options version).files, FsPath.validUtf8 e.1 = true := by
  obtain ⟨name, description, template, project_root⟩ := options
  simp only [root_path] at h
  cases template <;> simp [Creator.files, Creator.new, join_validUtf8, h]

theorem run_ok_of_root_valid (options : NewOptions) (version : String)
    (h : (root_path options).validUtf8 = true) :
    (Creator.new options version).run =
      (RunResult.ok,
        (Creator.new options version).dirs.map FsOp.mkdir ++
          ((Creator.new options version).files).map (fun e => FsOp.write e.1 e.2)) := by
  unfold Creator.run
  exact run_writes_all_valid _ _ (files_valid_of_root_valid options version h)

theorem run_writes_head_invalid (path : FsPath) (contents : String)
    (rest : List (FsPath × String)) (acc : List FsOp)
    (h : path.validUtf8 = false) :
    run_writes ((path, contents) :: rest) acc = (RunResult.panicked, acc) := by
  unfold run_writes write
  rw [if_neg (by simp [h])]

theorem run_panicked_of_root_invalid (options : NewOptions) (version : String)
    (h : (root_path options).validUtf8 = false) :
    (Creator.new options version).run =
      (RunResult.panicked, (Creator.new options version).dirs.map FsOp.mkdir) := by
  obtain ⟨name, description, template, project_root⟩ := options
  have hg : FsPath.validUtf8
      ((Creator.new (NewOptions.mk name description template project_root) version).root.join
        (".gitignore")) = false := by
    rw [join_validUtf8]
    exact h
  cases template <;> exact run_writes_head_invalid _ _ _ _ hg

/-- C10: when the computed root path is valid UTF-8 (and hence every derived
file path is), `create` never panics; the `expect` in the `write` helper panics
exactly on non-UTF-8 paths before performing any mutation; and for a
validated name with a non-UTF-8 root, `create` aborts by panic instead of
returning an error value. -/
theorem c10_panic_only_on_non_utf8 (tables : KeywordTables) (options : NewOptions)
    (version : String) (p : FsPath) (c : String) :
    (FsPath.validUtf8 (root_path options) = true →
      (create tables options version).1 ≠ RunResult.panicked) ∧
    (FsPath.validUtf8 p = false → write p c = WriteResult.panicked) ∧
    (validate_name tables options.name = none →
      FsPath.validUtf8 (root_path options) = false →
      (create tables options version).1 = RunResult.panicked) := by
  refine ⟨?_, ?_, ?_⟩
  · intro h
    cases hval : validate_name tables options.name with
    | some e => simp [create, hval]
    | none =>
      have hroot : (Creator.new options version).root = root_path options := rfl
      simp only [create, hval, run_ok_of_root_valid options version h, hroot, h]
      simp
  · intro h
    simp [write, h]
  · intro hval h
    simp only [create, hval, run_panicked_of_root_invalid options version h]

/-- Concrete options whose explicit project root is a non-UTF-8 path. -/
def bad_root_options : NewOptions :=
  NewOptions.mk "myapp" "A fun project" Template.Lib (some (OsStr.invalid 0))

/-- Witness for C10: with a valid name but a non-UTF-8 project root,
`create` panics. -/
theorem c10_panic_only_on_non_utf8_witness :
    (create sample_tables bad_root_options "0.13.0").1 = RunResult.panicked :=
  (c10_panic_only_on_non_utf8 sample_tables bad_root_options "0.13.0" [] "").2.2
    (by decide) (by decide)

end GleamNew
